import Mathlib

/-!
Shallow embedding of `src/kerastuner/engine/cloudservice.py`, the cloud
telemetry-reporting client of this repository, together with theorems
settling the specification claims about it.

Modelling conventions:
* Python dicts are association lists `List (String × JVal)`; lookup takes
  the first matching key (Python dicts have unique keys, so this agrees).
* JSON values are the inductive `JVal`; numeric payload values are modelled
  as integers (no claim depends on floating point payload values).
* `requests.post` is an oracle `transport : Request → Response`; a
  `Response` carries the `ok` flag, the result of `.json()` as an
  `Option JVal` (`none` = the body does not parse, i.e. `.json()` raises
  `json.decoder.JSONDecodeError`), and the raw `.text`.
* A Python function that can raise is embedded with `Except PyError _`.
* Wall-clock time (`time.time()`) is modelled as an explicit integer
  argument to the functions that read the clock; the debounce logic uses
  only subtraction and strict comparison, which are order-theoretic, so
  nothing is lost by quantizing time.
* The process pool is modelled by a `pending` list of submitted tasks:
  `executor.submit` appends a task; task execution is outside the client
  state transition (fire-and-forget), so a submitted task is recorded
  before its send completes.
-/

namespace CloudSvc

/-- JSON-like values, the payloads and response bodies of the module. -/
inductive JVal where
  | null
  | bool (b : Bool)
  | num (n : Int)
  | str (s : String)
  | arr (elems : List JVal)
  | obj (fields : List (String × JVal))

/-- Python exceptions that can escape the classification code. -/
inductive PyError where
  | keyError
  | typeError
deriving DecidableEq

/-- Module constant `DISABLE = 'disable'`. -/
def DISABLE : String := "disable"

/-- Module constant `AUTH_ERROR = 'authentication error'`. -/
def AUTH_ERROR : String := "authentication error"

/-- Module constant `CONNECT_ERROR = 'connection error'`. -/
def CONNECT_ERROR : String := "connection error"

/-- Module constant `UPLOAD_ERROR = 'upload error'`. -/
def UPLOAD_ERROR : String := "upload error"

/-- Module constant `OK = 'ok'`. -/
def OK : String := "ok"

/-- Module constant `ERROR = 'error'`. -/
def ERROR : String := "error"

/-- First-match lookup in an association list (Python `d[k]` / `k in d`). -/
def dictLookup {β : Type} (k : String) : List (String × β) → Option β
  | [] => none
  | (k', v) :: rest => if k' = k then some v else dictLookup k rest

/-- The excluded-field set of `_normalize_data_to_send`. -/
def excludedKeys : List String := ["model_config", "epoch_history"]

/-- Python `if key in info: del info[key]` on the association-list model of
a dict.  A dict has unique keys, so removing every occurrence of the key
coincides with deleting the single entry (and is a no-op when absent). -/
def dictRemove (k : String) : List (String × JVal) → List (String × JVal)
  | [] => []
  | (k', v) :: rest =>
    if k' = k then dictRemove k rest else (k', v) :: dictRemove k rest

/-- `_normalize_data_to_send`: deep-copies the payload and deletes the keys
`'model_config'` and `'epoch_history'` when present, in that order.  In the
pure embedding the deep copy is implicit: the input list is never mutated,
so the no-mutation part of the contract is structural. -/
def _normalize_data_to_send (info : List (String × JVal)) :
    List (String × JVal) :=
  dictRemove "epoch_history" (dictRemove "model_config" info)

/-- Python `s.rstrip('/')` on the character list of a string. -/
def rstripChars (l : List Char) : List Char :=
  (l.reverse.dropWhile (fun c => c == '/')).reverse

/-- Python `s.rstrip('/')`. -/
def rstripSlash (s : String) : String :=
  String.mk (rstripChars s.data)

/-- Python `"/".join(parts)`. -/
def joinSlash : List String → String
  | [] => ""
  | [x] => x
  | x :: xs => x ++ "/" ++ joinSlash xs

/-- `CloudService._url_join`: right-strips `'/'` from every part and joins
the parts with `'/'`. -/
def _url_join (parts : List String) : String :=
  joinSlash (parts.map rstripSlash)

/-- An HTTP POST request as issued by the module: target URL, the `X-AUTH`
header value, and the JSON body. -/
structure Request where
  url : String
  xauth : Option String
  body : JVal

/-- A transport response: the `ok` flag, the parse result of `.json()`
(`none` when the body cannot be parsed as JSON), and the raw text. -/
structure Response where
  ok : Bool
  body : Option JVal
  text : String

/-- Python `response_json['status']`: `KeyError` when the parsed value is a
dict without the key, `TypeError` when it is not a dict at all. -/
def subscriptStatus : JVal → Except PyError JVal
  | JVal.obj fields =>
    match dictLookup "status" fields with
    | some v => Except.ok v
    | none => Except.error PyError.keyError
  | _ => Except.error PyError.typeError

/-- Python `v == 'Unauthorized'` for a JSON value `v`. -/
def isUnauthorized : JVal → Bool
  | JVal.str s => s = "Unauthorized"
  | _ => false

/-- The outcome classification of `send_to_backend` (lines 70-86): given the
transport response, produce the outcome string, or the Python exception that
escapes. -/
def classify (resp : Response) : Except PyError String :=
  if !resp.ok then
    match resp.body with
    | none => Except.ok CONNECT_ERROR
    | some j =>
      match subscriptStatus j with
      | Except.error e => Except.error e
      | Except.ok v =>
        if isUnauthorized v then Except.ok AUTH_ERROR
        else Except.ok UPLOAD_ERROR
  else
    Except.ok OK

/-- The POST request issued by `send_to_backend`: JSON body
`type = info_type, data = normalized payload`, header `X-AUTH: api_key`. -/
def updateRequest (url api_key info_type : String)
    (info : List (String × JVal)) : Request :=
  { url := url
    xauth := some api_key
    body := JVal.obj
      [("type", JVal.str info_type),
       ("data", JVal.obj (_normalize_data_to_send info))] }

/-- `send_to_backend(url, api_key, info_type, info)`: posts the normalized
payload through the transport, then classifies the response. -/
def send_to_backend (transport : Request → Response)
    (url api_key info_type : String) (info : List (String × JVal)) :
    Except PyError String :=
  classify (transport (updateRequest url api_key info_type info))

/-- A response on which the classification code of `send_to_backend` reaches
a `return`: a success, an unparseable failure body, or a parseable failure
body that is a JSON object carrying a `'status'` key.  On every other
response (`resp.ok` false and a parseable body that is not an object or
lacks `'status'`) the code raises. -/
def responseWellFormed (resp : Response) : Bool :=
  resp.ok ||
    match resp.body with
    | none => true
    | some (JVal.obj fields) => (dictLookup "status" fields).isSome
    | some _ => false

/-- A task handed to `executor.submit`: the arguments of the deferred
`send_to_backend` call. -/
structure Task where
  url : String
  api_key : Option String
  info_type : String
  info : List (String × JVal)

/-- The mutable state of a `CloudService` instance.  `pending` records the
tasks submitted to the process pool (fire-and-forget: submission returns
before the send runs). -/
structure CloudService where
  enabled : Bool
  status : String
  base_url : String
  api_key : Option String
  log_interval : Int
  last_update : Int
  pending : List Task

/-- `CloudService.__init__`. -/
def CloudService.init : CloudService :=
  { enabled := false
    status := "disable"
    base_url := "https://us-central1-kerastuner-prod.cloudfunctions.net/api/"
    api_key := none
    log_interval := 5
    last_update := -1
    pending := [] }

/-- `CloudService._check_access`: the two reserved test credentials bypass
the network; otherwise a POST to the check-access URL is issued and its `ok`
flag returned.  `oracle url key` is the `ok` flag of that POST.  The second
component of the result records whether the network was used. -/
def _check_access (oracle : String → Option String → Bool)
    (s : CloudService) : Bool × Bool :=
  if s.api_key = some "test_key_true" then (true, false)
  else if s.api_key = some "test_key_false" then (false, false)
  else
    let url := _url_join [s.base_url, "v1/check-access"]
    (oracle url s.api_key, true)

/-- `CloudService.enable(api_key, url=None)`: stores the credential, applies
the URL override when truthy, runs the access check, and sets
`status`/`enabled` accordingly.  Returns the new state and whether a network
call was made. -/
def enable (oracle : String → Option String → Bool) (s : CloudService)
    (api_key : String) (url : Option String) : CloudService × Bool :=
  let s1 : CloudService := { s with api_key := some api_key }
  let s2 : CloudService :=
    match url with
    | some u => if u = "" then s1 else { s1 with base_url := u }
    | none => s1
  let check := _check_access oracle s2
  if check.1 then
    ({ s2 with status := OK, enabled := true }, check.2)
  else
    ({ s2 with status := AUTH_ERROR, enabled := false }, check.2)

/-- `CloudService._send_nonblocking(info_type, info)`: returns `None`
(modelled `none`) on both paths; when enabled, submits a `send_to_backend`
task to the pool. -/
def _send_nonblocking (s : CloudService) (info_type : String)
    (info : List (String × JVal)) : CloudService × Option String :=
  if !s.enabled then (s, none)
  else
    let url := _url_join [s.base_url, "v1/update"]
    ({ s with pending := s.pending ++ [⟨url, s.api_key, info_type, info⟩] },
     none)

/-- `CloudService.send_status(status)`: debounced by `log_interval`; `ts` is
the value of `time.time()` at the call. -/
def send_status (s : CloudService) (ts : Int)
    (payload : List (String × JVal)) : CloudService :=
  if ts - s.last_update > s.log_interval then
    let s1 := (_send_nonblocking s "status" payload).1
    { s1 with last_update := ts }
  else s

/-- `CloudService.send_results(results)`: forwards to `_send_nonblocking`
and returns `None` (the Python body has no `return` statement). -/
def send_results (s : CloudService) (payload : List (String × JVal)) :
    CloudService × Option String :=
  _send_nonblocking s "results" payload

/-- The value type of the dict returned by `get_config`. -/
inductive ConfigVal where
  | b (b : Bool)
  | s (s : String)
  | t (t : Int)
deriving DecidableEq

/-- `CloudService.get_config`: the exported snapshot
`{"enabled": ..., "status": ..., "last_update": ...}`. -/
def get_config (s : CloudService) : List (String × ConfigVal) :=
  [("enabled", ConfigVal.b s.enabled),
   ("status", ConfigVal.s s.status),
   ("last_update", ConfigVal.t s.last_update)]

/-! ## Helper lemmas -/

/-- Right-stripping `'/'` absorbs a trailing `'/'` on the character list. -/
lemma rstripChars_append_slash (l : List Char) :
    rstripChars (l ++ ['/']) = rstripChars l := by
  simp [rstripChars, List.reverse_append, List.dropWhile]

/-- Right-stripping `'/'` absorbs a trailing `'/'` on the string. -/
lemma rstripSlash_append_slash (s : String) :
    rstripSlash (s ++ "/") = rstripSlash s := by
  cases s with
  | mk l =>
    show String.mk (rstripChars (l ++ ['/'])) = String.mk (rstripChars l)
    rw [rstripChars_append_slash]

/-- Looking up the removed key yields nothing. -/
lemma dictLookup_dictRemove_self (k : String) (l : List (String × JVal)) :
    dictLookup k (dictRemove k l) = none := by
  induction l with
  | nil => rfl
  | cons kv rest ih =>
    obtain ⟨k', v⟩ := kv
    by_cases h : k' = k
    · simp [dictRemove, h, ih]
    · simp [dictRemove, dictLookup, h, ih]

/-- Removing one key leaves lookups of any other key unchanged. -/
lemma dictLookup_dictRemove_ne (k k0 : String) (h : k0 ≠ k)
    (l : List (String × JVal)) :
    dictLookup k0 (dictRemove k l) = dictLookup k0 l := by
  induction l with
  | nil => rfl
  | cons kv rest ih =>
    obtain ⟨k', v⟩ := kv
    by_cases h1 : k' = k
    · subst h1
      have h2 : ¬ k' = k0 := fun he => h he.symm
      simp [dictRemove, dictLookup, h2, ih]
    · by_cases h2 : k' = k0
      · subst h2
        simp [dictRemove, dictLookup, h1, dictLookup]
      · simp [dictRemove, dictLookup, h1, h2, ih]

/-- A JSON value other than the string `'Unauthorized'` fails the
`== 'Unauthorized'` test. -/
lemma isUnauthorized_eq_false (v : JVal) (h : v ≠ JVal.str "Unauthorized") :
    isUnauthorized v = false := by
  cases v with
  | str s =>
    simp only [isUnauthorized, decide_eq_false_iff_not]
    exact fun hs => h (congrArg JVal.str hs)
  | null => rfl
  | bool b => rfl
  | num n => rfl
  | arr elems => rfl
  | obj fields => rfl

/-- On a well-formed response the classification reaches a `return`. -/
lemma classify_ok_of_wellformed (resp : Response)
    (h : responseWellFormed resp = true) :
    ∃ o : String, classify resp = Except.ok o := by
  obtain ⟨ok, body, text⟩ := resp
  cases ok with
  | true => exact ⟨OK, rfl⟩
  | false =>
    cases body with
    | none => exact ⟨CONNECT_ERROR, rfl⟩
    | some j =>
      cases j with
      | obj fields =>
        simp only [responseWellFormed, Bool.false_or] at h
        obtain ⟨v, hv⟩ := Option.isSome_iff_exists.mp h
        by_cases hu : isUnauthorized v = true
        · exact ⟨AUTH_ERROR, by simp [classify, subscriptStatus, hv, hu]⟩
        · exact ⟨UPLOAD_ERROR, by simp [classify, subscriptStatus, hv,
            Bool.eq_false_iff.mpr hu]⟩
      | null => simp [responseWellFormed] at h
      | bool b => simp [responseWellFormed] at h
      | num n => simp [responseWellFormed] at h
      | str s => simp [responseWellFormed] at h
      | arr elems => simp [responseWellFormed] at h

/-! ## Claim C4: URL joining -/

/-- C4 counterexample: joining `'https://x/y'` with `'/update'` yields
`'https://x/y//update'`, not `'https://x/y/update'` — `_url_join` is not
invariant to a leading `'/'` on the path segment, because `rstrip('/')`
only strips trailing separators. -/
theorem url_join_leading_slash_counterexample :
    _url_join ["https://x/y", "/update"] = "https://x/y//update"
    ∧ "https://x/y//update" ≠ "https://x/y/update" := by decide

/-- C4 (amended): `_url_join` is invariant to a trailing `'/'` on the base,
and when neither the base nor the segment carries a trailing `'/'` it
returns their concatenation with exactly one `'/'` between them.  (It is
not invariant to a leading `'/'` on the segment.) -/
theorem url_join_claim (b s : String) :
    _url_join [b ++ "/", s] = _url_join [b, s]
    ∧ (rstripSlash b = b → rstripSlash s = s →
        _url_join [b, s] = b ++ "/" ++ s) := by
  constructor
  · show joinSlash [rstripSlash (b ++ "/"), rstripSlash s]
      = joinSlash [rstripSlash b, rstripSlash s]
    rw [rstripSlash_append_slash]
  · intro hb hs
    show rstripSlash b ++ "/" ++ rstripSlash s = b ++ "/" ++ s
    rw [hb, hs]

/-- C4 witness: the amended claim evaluated on the spec's own example. -/
theorem url_join_claim_witness :
    _url_join ["https://x/y" ++ "/", "update"] = _url_join ["https://x/y", "update"]
    ∧ _url_join ["https://x/y", "update"] = "https://x/y" ++ "/" ++ "update" :=
  ⟨(url_join_claim "https://x/y" "update").1,
   (url_join_claim "https://x/y" "update").2 (by decide) (by decide)⟩

/-! ## Claim C5: payload sanitization -/

/-- C5: `_normalize_data_to_send` removes every key of the excluded-field
set (`'model_config'` and `'epoch_history'`), a no-op when absent, and
leaves the binding of every other key — its value and hence its whole
nested structure — unchanged.  The input is not mutated: the embedding is
pure and the function builds its output from a copy. -/
theorem normalize_data_claim (info : List (String × JVal)) :
    dictLookup "model_config" (_normalize_data_to_send info) = none
    ∧ dictLookup "epoch_history" (_normalize_data_to_send info) = none
    ∧ ∀ k : String, ¬ k ∈ excludedKeys →
        dictLookup k (_normalize_data_to_send info) = dictLookup k info := by
  refine ⟨?_, ?_, ?_⟩
  · unfold _normalize_data_to_send
    rw [dictLookup_dictRemove_ne _ _ (by decide)]
    exact dictLookup_dictRemove_self _ _
  · exact dictLookup_dictRemove_self _ _
  · intro k hk
    have h1 : k ≠ "model_config" := by
      intro he; exact hk (by rw [he]; decide)
    have h2 : k ≠ "epoch_history" := by
      intro he; exact hk (by rw [he]; decide)
    unfold _normalize_data_to_send
    rw [dictLookup_dictRemove_ne _ _ h2, dictLookup_dictRemove_ne _ _ h1]

/-- C5 witness: on a payload with a `model_config` and a `score` key, the
excluded key is gone and the other key is preserved. -/
theorem normalize_data_claim_witness :
    dictLookup "model_config"
      (_normalize_data_to_send [("model_config", JVal.num 1), ("score", JVal.num 9)]) = none
    ∧ dictLookup "score"
      (_normalize_data_to_send [("model_config", JVal.num 1), ("score", JVal.num 9)])
      = dictLookup "score" [("model_config", JVal.num 1), ("score", JVal.num 9)] :=
  ⟨(normalize_data_claim [("model_config", JVal.num 1), ("score", JVal.num 9)]).1,
   (normalize_data_claim [("model_config", JVal.num 1), ("score", JVal.num 9)]).2.2
     "score" (by decide)⟩

/-! ## Claim C1: totality of the transmitter -/

/-- C1 counterexample: when the transport reports failure and the body
parses to a JSON object without a `'status'` field, `send_to_backend`
raises a `KeyError` (the subscript `response_json['status']` is outside the
`try` block), so it does not terminate normally with an Outcome value. -/
theorem send_to_backend_keyerror_escape :
    send_to_backend
      (fun _ => { ok := false, body := some (JVal.obj []), text := "body" })
      "https://b/v1/update" "key" "status" []
    = Except.error PyError.keyError := rfl

/-- C1 (amended): for every url, credential, infoType and payload,
`send_to_backend` terminates normally with an Outcome value whenever the
transport response reports success, or reports failure with an unparseable
body, or reports failure with a body that parses to a JSON object carrying
a `'status'` field; a parseable failure body without a subscriptable
`'status'` field instead raises (`KeyError`/`TypeError`). -/
theorem send_to_backend_total_on_wellformed
    (transport : Request → Response) (url api_key info_type : String)
    (info : List (String × JVal))
    (h : responseWellFormed
      (transport (updateRequest url api_key info_type info)) = true) :
    ∃ o : String,
      send_to_backend transport url api_key info_type info = Except.ok o :=
  classify_ok_of_wellformed _ h

/-- C1 witness: a transport that reports success. -/
theorem send_to_backend_total_witness :
    responseWellFormed
      ((fun _ => ({ ok := true, body := none, text := "" } : Response))
        (updateRequest "https://b/v1/update" "key" "status" [])) = true
    ∧ ∃ o : String,
        send_to_backend
          (fun _ => ({ ok := true, body := none, text := "" } : Response))
          "https://b/v1/update" "key" "status" [] = Except.ok o :=
  ⟨rfl, send_to_backend_total_on_wellformed _ _ _ _ _ rfl⟩

/-! ## Claim C2: outcome classification -/

/-- C2 counterexample: a failure response with the parseable body
`\x7b"error": "boom"\x7d` (no `'status'` field) is "anything else" in the
claim's wording, yet the classification raises `KeyError` instead of
returning `UploadError`. -/
theorem classify_missing_status_counterexample :
    classify { ok := false, body := some (JVal.obj [("error", JVal.str "boom")]),
               text := "body" }
      = Except.error PyError.keyError
    ∧ (Except.error PyError.keyError : Except PyError String)
        ≠ Except.ok UPLOAD_ERROR :=
  ⟨rfl, fun he => Except.noConfusion he⟩

/-- C2 (amended): `send_to_backend` classifies every transport response as
follows — success → `OK`; failure with unparseable body → `CONNECT_ERROR`;
failure with a parseable object body whose `'status'` field equals
`'Unauthorized'` → `AUTH_ERROR`; failure with a parseable object body whose
`'status'` field is present but differs from `'Unauthorized'` →
`UPLOAD_ERROR`.  (A parseable failure body without a `'status'` field
raises instead of returning `UPLOAD_ERROR`.) -/
theorem classify_cases (resp : Response) :
    (resp.ok = true → classify resp = Except.ok OK)
    ∧ (resp.ok = false → resp.body = none →
        classify resp = Except.ok CONNECT_ERROR)
    ∧ (∀ fields, resp.ok = false → resp.body = some (JVal.obj fields) →
        dictLookup "status" fields = some (JVal.str "Unauthorized") →
        classify resp = Except.ok AUTH_ERROR)
    ∧ (∀ fields v, resp.ok = false → resp.body = some (JVal.obj fields) →
        dictLookup "status" fields = some v → v ≠ JVal.str "Unauthorized" →
        classify resp = Except.ok UPLOAD_ERROR) := by
  obtain ⟨ok, body, text⟩ := resp
  refine ⟨?_, ?_, ?_, ?_⟩
  · intro hok
    simp only at hok
    subst hok
    rfl
  · intro hok hbody
    simp only at hok hbody
    subst hok
    subst hbody
    rfl
  · intro fields hok hbody hst
    simp only at hok hbody
    subst hok
    subst hbody
    simp [classify, subscriptStatus, hst, isUnauthorized]
  · intro fields v hok hbody hst hne
    simp only at hok hbody
    subst hok
    subst hbody
    simp [classify, subscriptStatus, hst, isUnauthorized_eq_false v hne]

/-- C2 witness: the four classification branches evaluated on concrete
responses. -/
theorem classify_cases_witness :
    classify ⟨true, none, "a"⟩ = Except.ok OK
    ∧ classify ⟨false, none, "b"⟩ = Except.ok CONNECT_ERROR
    ∧ classify ⟨false, some (JVal.obj [("status", JVal.str "Unauthorized")]), "c"⟩
        = Except.ok AUTH_ERROR
    ∧ classify ⟨false, some (JVal.obj [("status", JVal.str "Backend error")]), "d"⟩
        = Except.ok UPLOAD_ERROR :=
  ⟨(classify_cases _).1 rfl,
   (classify_cases _).2.1 rfl rfl,
   (classify_cases _).2.2.1 _ rfl rfl rfl,
   (classify_cases _).2.2.2 _ _ rfl rfl rfl (by simp)⟩

/-! ## Claim C10: the generic ERROR value is unreachable -/

/-- C10: whenever `send_to_backend` terminates normally, its value is one
of the four outcomes `OK`, `AUTH_ERROR`, `CONNECT_ERROR`, `UPLOAD_ERROR`
and never the generic `ERROR`: the `return ERROR` statement after the
if/else classification is dead code (both branches above it return). -/
theorem send_to_backend_outcomes
    (transport : Request → Response) (url api_key info_type : String)
    (info : List (String × JVal)) (v : String)
    (h : send_to_backend transport url api_key info_type info
      = Except.ok v) :
    (v = OK ∨ v = AUTH_ERROR ∨ v = CONNECT_ERROR ∨ v = UPLOAD_ERROR)
    ∧ v ≠ ERROR := by
  have h' : classify (transport (updateRequest url api_key info_type info))
      = Except.ok v := h
  revert h'
  generalize transport (updateRequest url api_key info_type info) = resp
  intro h'
  obtain ⟨ok, body, text⟩ := resp
  cases ok with
  | true =>
    have hv : v = OK := by simpa [classify] using h'.symm
    subst hv
    exact ⟨Or.inl rfl, by decide⟩
  | false =>
    cases body with
    | none =>
      have hv : v = CONNECT_ERROR := by simpa [classify] using h'.symm
      subst hv
      exact ⟨Or.inr (Or.inr (Or.inl rfl)), by decide⟩
    | some j =>
      cases hs : subscriptStatus j with
      | error e => simp [classify, hs] at h'
      | ok w =>
        by_cases hu : isUnauthorized w = true
        · have hv : v = AUTH_ERROR := by simpa [classify, hs, hu] using h'.symm
          subst hv
          exact ⟨Or.inr (Or.inl rfl), by decide⟩
        · have hv : v = UPLOAD_ERROR := by
            simpa [classify, hs, Bool.eq_false_iff.mpr hu] using h'.symm
          subst hv
          exact ⟨Or.inr (Or.inr (Or.inr rfl)), by decide⟩

/-- C10 witness: a successful send lands in the four-outcome set. -/
theorem send_to_backend_outcomes_witness :
    (OK = OK ∨ OK = AUTH_ERROR ∨ OK = CONNECT_ERROR ∨ OK = UPLOAD_ERROR)
    ∧ OK ≠ ERROR :=
  send_to_backend_outcomes
    (fun _ => { ok := true, body := none, text := "" })
    "https://b/v1/update" "key" "status" [] OK rfl

/-! ## Claim C3: debounced status sends -/

/-- C3 counterexample: on a fresh enabled client (stored timestamp `-1`,
interval `5`), two `send_status` calls at times `1` and `2` — elapsed time
`1`, strictly less than the interval — dispatch zero sends, not exactly
one: the first call itself falls inside the debounce window of the
starting timestamp. -/
theorem send_status_first_call_in_window_counterexample :
    (send_status (send_status { CloudService.init with enabled := true } 1 [])
      2 []).pending.length = 0
    ∧ (0 : Nat) ≠ 1 := by decide

/-- C3 (amended): on an enabled client whose first `send_status` call at
time `t1` falls outside the debounce window of the stored timestamp, the
first call dispatches one send and records `last_update = t1` at dispatch
time (the submitted task is still pending, i.e. the timestamp is written
before the asynchronous send completes); a second call at time `t2`
dispatches nothing when `t2 - t1` is strictly below the interval, and
dispatches a second send (recording `last_update = t2`) when `t2 - t1` is
strictly above it. -/
theorem send_status_debounce (s : CloudService) (t1 t2 : Int)
    (p1 p2 : List (String × JVal))
    (hen : s.enabled = true) (h1 : t1 - s.last_update > s.log_interval) :
    ((send_status s t1 p1).pending.length = s.pending.length + 1
      ∧ (send_status s t1 p1).last_update = t1)
    ∧ (t2 - t1 < s.log_interval →
        (send_status (send_status s t1 p1) t2 p2).pending.length
          = s.pending.length + 1)
    ∧ (t2 - t1 > s.log_interval →
        (send_status (send_status s t1 p1) t2 p2).pending.length
          = s.pending.length + 2
        ∧ (send_status (send_status s t1 p1) t2 p2).last_update = t2) := by
  have hstep : send_status s t1 p1
      = { s with
          pending := s.pending ++
            [⟨_url_join [s.base_url, "v1/update"], s.api_key, "status", p1⟩]
          last_update := t1 } := by
    simp [send_status, _send_nonblocking, hen, h1]
  refine ⟨?_, ?_, ?_⟩
  · rw [hstep]
    constructor
    · simp
    · rfl
  · intro hlt
    have hnot : ¬ (t2 - (send_status s t1 p1).last_update
        > (send_status s t1 p1).log_interval) := by
      rw [hstep]
      simp only
      omega
    rw [send_status, if_neg hnot, hstep]
    simp
  · intro hgt
    have hcond : t2 - (send_status s t1 p1).last_update
        > (send_status s t1 p1).log_interval := by
      rw [hstep]
      simp only
      omega
    rw [send_status, if_pos hcond, hstep]
    constructor
    · simp [_send_nonblocking, hen]
    · rfl

/-- C3 witness: fresh enabled client, calls at times 10 and 12. -/
theorem send_status_debounce_witness :
    ((send_status { CloudService.init with enabled := true } 10 []).pending.length = 1
      ∧ (send_status { CloudService.init with enabled := true } 10 []).last_update = 10)
    ∧ ((12 : Int) - 10 < 5 →
        (send_status (send_status { CloudService.init with enabled := true } 10 [])
          12 []).pending.length = 1)
    ∧ ((12 : Int) - 10 > 5 →
        (send_status (send_status { CloudService.init with enabled := true } 10 [])
          12 []).pending.length = 2
        ∧ (send_status (send_status { CloudService.init with enabled := true } 10 [])
            12 []).last_update = 12) :=
  send_status_debounce { CloudService.init with enabled := true } 10 12 [] []
    rfl (by decide)

/-! ## Claim C6: reserved test credentials -/

/-- C6: for every network oracle, client state and URL override,
`enable('test_key_true')` makes no network call and yields
`enabled = true, status = OK`, and `enable('test_key_false')` makes no
network call and yields `enabled = false, status = AUTH_ERROR`; the second
component of `enable` records whether the network was used. -/
theorem enable_test_keys (oracle : String → Option String → Bool)
    (s : CloudService) (u : Option String) :
    ((enable oracle s "test_key_true" u).1.enabled = true
      ∧ (enable oracle s "test_key_true" u).1.status = OK
      ∧ (enable oracle s "test_key_true" u).2 = false)
    ∧ ((enable oracle s "test_key_false" u).1.enabled = false
      ∧ (enable oracle s "test_key_false" u).1.status = AUTH_ERROR
      ∧ (enable oracle s "test_key_false" u).2 = false) := by
  cases u with
  | none => simp [enable, _check_access]
  | some v =>
    by_cases hv : v = ""
    · simp [enable, _check_access, hv]
    · simp [enable, _check_access, hv]

/-! ## Claim C7: send_results dispatch and return value -/

/-- C7 counterexample: on a disabled client `send_results` returns `None`
(the Python method body has no `return` statement and `_send_nonblocking`
returns bare), not a `Disabled` indicator; only the unrelated blocking path
`_send_blocking` returns `'disabled'`. -/
theorem send_results_returns_none_counterexample :
    (send_results CloudService.init []).2 = none
    ∧ (none : Option String) ≠ some DISABLE :=
  ⟨rfl, fun he => Option.noConfusion he⟩

/-- C7 (amended): on a disabled client `send_results` dispatches zero
sends and leaves the whole state (status included) unchanged, but returns
`None` rather than a `Disabled` indicator; on an enabled client every call
dispatches exactly one non-blocking send with infoType `'results'` — no
debouncing — leaving `status` and `last_update` unchanged and likewise
returning `None`. -/
theorem send_results_claim (s : CloudService) (p : List (String × JVal)) :
    (s.enabled = false → send_results s p = (s, none))
    ∧ (s.enabled = true →
        (send_results s p).1.pending = s.pending ++
          [⟨_url_join [s.base_url, "v1/update"], s.api_key, "results", p⟩]
        ∧ (send_results s p).1.status = s.status
        ∧ (send_results s p).1.last_update = s.last_update
        ∧ (send_results s p).2 = none) := by
  constructor
  · intro hd
    simp [send_results, _send_nonblocking, hd]
  · intro he
    simp [send_results, _send_nonblocking, he]

/-- C7 witness: a disabled and an enabled concrete client. -/
theorem send_results_claim_witness :
    send_results CloudService.init [] = (CloudService.init, none)
    ∧ (send_results { CloudService.init with enabled := true } []).2 = none :=
  ⟨(send_results_claim CloudService.init []).1 rfl,
   ((send_results_claim { CloudService.init with enabled := true } []).2 rfl).2.2.2⟩

/-! ## Claim C8: send_status on a disabled client -/

/-- C8 counterexample: on the freshly constructed (disabled) client a
`send_status` call at time `10` dispatches nothing, yet it does not leave
every field unchanged: `last_update` moves from `-1` to `10`, because the
debounce guard updates the timestamp outside the enabled check. -/
theorem send_status_disabled_updates_timestamp_counterexample :
    (send_status CloudService.init 10 []).pending = []
    ∧ (send_status CloudService.init 10 []).last_update
        ≠ CloudService.init.last_update :=
  ⟨rfl, by decide⟩

/-- C8 (amended): on a disabled client `send_status` dispatches no send
and makes no network call, and leaves every field unchanged except
`last_update`, which is still set to the call time whenever the call falls
outside the debounce window. -/
theorem send_status_disabled_frame (s : CloudService) (ts : Int)
    (p : List (String × JVal)) (h : s.enabled = false) :
    (send_status s ts p).pending = s.pending
    ∧ (send_status s ts p).enabled = s.enabled
    ∧ (send_status s ts p).status = s.status
    ∧ (send_status s ts p).base_url = s.base_url
    ∧ (send_status s ts p).api_key = s.api_key
    ∧ (send_status s ts p).log_interval = s.log_interval
    ∧ (send_status s ts p).last_update
        = (if ts - s.last_update > s.log_interval then ts
           else s.last_update) := by
  by_cases hc : ts - s.last_update > s.log_interval
  · simp [send_status, _send_nonblocking, h, hc]
  · simp [send_status, _send_nonblocking, h, hc]

/-- C8 witness: the disabled fresh client at time `10`. -/
theorem send_status_disabled_frame_witness :
    (send_status CloudService.init 10 []).pending = CloudService.init.pending
    ∧ (send_status CloudService.init 10 []).enabled = CloudService.init.enabled
    ∧ (send_status CloudService.init 10 []).status = CloudService.init.status
    ∧ (send_status CloudService.init 10 []).base_url = CloudService.init.base_url
    ∧ (send_status CloudService.init 10 []).api_key = CloudService.init.api_key
    ∧ (send_status CloudService.init 10 []).log_interval
        = CloudService.init.log_interval
    ∧ (send_status CloudService.init 10 []).last_update
        = (if (10 : Int) - CloudService.init.last_update
              > CloudService.init.log_interval then 10
           else CloudService.init.last_update) :=
  send_status_disabled_frame CloudService.init 10 [] rfl

/-! ## Claim C9: the exported snapshot never includes the credential -/

/-- C9: `get_config` exports exactly the fields `enabled`, `status` and
`last_update`, and is independent of the stored credential: two states
differing only in `api_key` yield the identical snapshot. -/
theorem get_config_claim (s : CloudService) (k : Option String) :
    (get_config s).map Prod.fst = ["enabled", "status", "last_update"]
    ∧ get_config { s with api_key := k } = get_config s :=
  ⟨rfl, rfl⟩

end CloudSvc
